import Mathlib

/-
Verification of the MFT REST submit-transfer sample (submit-request.py).

The program builds a JSON transfer request, POSTs it to an MQ web server,
and on a 202 response GETs the returned status location; on a 404 from the
first GET it is supposed to retry the GET once.

The embedding below translates each Python function into a Lean function.
Printed output is modelled as a list of strings; a Python exception is
modelled as an `Except.error` carrying a `PyError`; the blanket
`try/except` at top level catches the error and prints its message.
Python string concatenation of a `str` with an `int` or with `None`
raises `TypeError` (this matters: the program does exactly that in two
print statements).
-/

namespace MftSubmit

/-- A JSON value as built by the Python dicts in `buildTransferRequest`.
Python dicts preserve insertion order and `json.dumps` serializes fields
in that order, so an ordered association list is faithful. -/
inductive Json where
  | str (s : String)
  | obj (fields : List (String × Json))
  | arr (elems : List Json)
deriving Repr

/-- Escaping done by `json.dumps` on string content: for the ASCII
strings this program handles, only the quote and the backslash are
escaped. -/
def escapeChar (c : Char) : String :=
  if c = '"' ∨ c = '\\' then "\\" ++ String.singleton c else String.singleton c

/-- Escape a whole string for JSON serialization. -/
def escape (s : String) : String :=
  String.join (s.data.map escapeChar)

mutual

/-- Python `json.dumps` with its default separators: fields are joined
with a comma and a space, and a colon and a space stand between key and
value. -/
def dumps : Json → String
  | .str s => "\"" ++ escape s ++ "\""
  | .obj fs => "\x7b" ++ dumpsFields fs ++ "\x7d"
  | .arr es => "[" ++ dumpsElems es ++ "]"

/-- Serialize the fields of a JSON object, comma-separated. -/
def dumpsFields : List (String × Json) → String
  | [] => ""
  | [(k, v)] => "\"" ++ escape k ++ "\": " ++ dumps v
  | (k, v) :: rest => "\"" ++ escape k ++ "\": " ++ dumps v ++ ", " ++ dumpsFields rest

/-- Serialize the elements of a JSON array, comma-separated. -/
def dumpsElems : List Json → String
  | [] => ""
  | [v] => dumps v
  | v :: rest => dumps v ++ ", " ++ dumpsElems rest

end

/-- The module-level configuration constants of submit-request.py that
feed the request builder and the credentials. The program reads them as
globals; the embedding passes them explicitly. -/
structure Config where
  sourceAgentName : String
  destinationAgentName : String
  sourceQMName : String
  destinationQMName : String
  sourceItemName : String
  destinationItemName : String
  sourceItemType : String
  destinationItemType : String
  mqWebUserId : String
  mqWebPassword : String
deriving Repr

/-- The configuration values hard-coded at the top of submit-request.py. -/
def defaultConfig : Config :=
  { sourceAgentName := "SRC"
    destinationAgentName := "DEST"
    sourceQMName := "SRCQM"
    destinationQMName := "DESTQM"
    sourceItemName := "/usr/srcdir"
    destinationItemName := "/usr/destdir"
    sourceItemType := "file"
    destinationItemType := "directory"
    mqWebUserId := "mftuser"
    mqWebPassword := "mftpassw0rd" }

/-- The one (source, destination) item pair the configuration surface
describes: one source name and type, one destination name and type. -/
def configuredItemPairs (c : Config) : List ((String × String) × (String × String)) :=
  [((c.sourceItemName, c.sourceItemType), (c.destinationItemName, c.destinationItemType))]

/-- Embedding of `buildTransferRequest`: builds the nested dicts exactly
as the source does and serializes them with `json.dumps`. The source
performs no validation of any field and hard-codes a single item. -/
def buildTransferRequest (c : Config) : String :=
  let sourceAgentAttributes : Json :=
    .obj [("qmgrName", .str c.sourceQMName), ("name", .str c.sourceAgentName)]
  let destinationAgentAttributes : Json :=
    .obj [("qmgrName", .str c.destinationQMName), ("name", .str c.destinationAgentName)]
  let sourceItem : Json :=
    .obj [("name", .str c.sourceItemName), ("type", .str c.sourceItemType)]
  let destinationItem : Json :=
    .obj [("name", .str c.destinationItemName), ("type", .str c.destinationItemType)]
  let item : Json :=
    .obj [("source", sourceItem), ("destination", destinationItem)]
  let transferSet : Json :=
    .obj [("item", .arr [item])]
  let transferRequest : Json :=
    .obj [("sourceAgent", sourceAgentAttributes),
          ("destinationAgent", destinationAgentAttributes),
          ("transferSet", transferSet)]
  dumps transferRequest

/-- UTF-8 encoding of one character, as Python `bytes(s, 'utf-8')`
produces it. -/
def utf8BytesOfChar (c : Char) : List Nat :=
  let n := c.toNat
  if n < 0x80 then [n]
  else if n < 0x800 then
    [0xC0 ||| (n >>> 6), 0x80 ||| (n &&& 0x3F)]
  else if n < 0x10000 then
    [0xE0 ||| (n >>> 12), 0x80 ||| ((n >>> 6) &&& 0x3F), 0x80 ||| (n &&& 0x3F)]
  else
    [0xF0 ||| (n >>> 18), 0x80 ||| ((n >>> 12) &&& 0x3F),
     0x80 ||| ((n >>> 6) &&& 0x3F), 0x80 ||| (n &&& 0x3F)]

/-- UTF-8 encoding of a string as a byte list. -/
def utf8Bytes (s : String) : List Nat :=
  (s.data.map utf8BytesOfChar).flatten

/-- The base64 alphabet. -/
def b64Alphabet : List Char :=
  "ABCDEFGHIJKLMNOPQRSTUVWXYZabcdefghijklmnopqrstuvwxyz0123456789+/".data

/-- Character for a 6-bit group. -/
def b64Char (n : Nat) : Char := b64Alphabet.getD n 'A'

/-- Embedding of `base64.b64encode` on a byte list, producing the
(ASCII) characters of the encoding, with padding. -/
def b64encode : List Nat → List Char
  | [] => []
  | [a] =>
    [b64Char (a >>> 2), b64Char ((a &&& 3) <<< 4), '=', '=']
  | [a, b] =>
    [b64Char (a >>> 2), b64Char (((a &&& 3) <<< 4) ||| (b >>> 4)),
     b64Char ((b &&& 15) <<< 2), '=']
  | a :: b :: c :: rest =>
    [b64Char (a >>> 2), b64Char (((a &&& 3) <<< 4) ||| (b >>> 4)),
     b64Char (((b &&& 15) <<< 2) ||| (c >>> 6)), b64Char (c &&& 63)]
    ++ b64encode rest

/-- Python `str(...)` applied to a `bytes` object returns its repr,
which wraps the (printable) contents in a `b` and single quotes: for
base64 output, all of which is printable ASCII without quotes, that is
exactly the payload surrounded by `b\x27` and `\x27`. -/
def pyStrOfBytes (bs : List Char) : String :=
  "b\x27" ++ String.mk bs ++ "\x27"

/-- Embedding of `buildHTTPHeaders`: the three headers the source
builds. Note the source applies `str` to the `bytes` returned by
`b64encode` instead of decoding it, so the Authorization value embeds
the Python bytes repr. -/
def buildHTTPHeaders (userId password : String) : List (String × String) :=
  let encodedUidPwd := b64encode (utf8Bytes (userId ++ ":" ++ password))
  [("Content-type", "application/json"),
   ("ibm-mq-rest-csrf-token", ""),
   ("Authorization", "Basic " ++ pyStrOfBytes encodedUidPwd)]

/-- Constants from Python's http.client used by the source. -/
def ACCEPTED : Nat := 202

/-- http.client.OK -/
def OK : Nat := 200

/-- http.client.NOT_FOUND -/
def NOT_FOUND : Nat := 404

/-- The Python exceptions this program can raise. -/
inductive PyError where
  | typeError (msg : String)
  | keyError (key : String)
  | indexError
deriving Repr, DecidableEq

/-- What `print(e)` shows for each exception, as the top-level
`except` block does. -/
def pyErrorMessage : PyError → String
  | .typeError msg => msg
  | .keyError key => "\x27" ++ key ++ "\x27"
  | .indexError => "list index out of range"

/-- Message of the TypeError raised by concatenating a str with an int. -/
def strIntTypeError : PyError :=
  .typeError "can only concatenate str (not \"int\") to str"

/-- Message of the TypeError raised by concatenating a str with None. -/
def strNoneTypeError : PyError :=
  .typeError "can only concatenate str (not \"NoneType\") to str"

/-- The response to the POST, as doPostTransfer observes it: the HTTP
status and the value of `response.getheader("location")`, which is
`None` when the header is absent. -/
structure PostResponse where
  status : Nat
  location : Option String
deriving Repr, DecidableEq

/-- The value doPostTransfer returns when it returns normally: the
Python function returns either the location header (a str) or the
status code (an int), distinguished by the caller via `type(...)`. -/
inductive PostResult where
  | loc (s : String)
  | code (n : Nat)
deriving Repr, DecidableEq

/-- Embedding of `doPostTransfer`. The source prints a progress line,
then on a 202 prints and returns the location header, otherwise prints
an error line and returns the status. When the status is 202 but the
location header is absent, the print of
`"Transfer requested accepted. Status URL " + response.getheader("location")`
concatenates a str with None and raises TypeError before any return. -/
def doPostTransfer (resp : PostResponse) : List String × Except PyError PostResult :=
  let p0 := "Posted transfer request successfully"
  if resp.status == ACCEPTED then
    match resp.location with
    | none => ([p0], .error strNoneTypeError)
    | some l =>
      ([p0, "Transfer requested accepted. Status URL " ++ l], .ok (.loc l))
  else
    ([p0, "An error occurred while posting transfer request. HTTP response code: "
        ++ toString resp.status],
     .ok (.code resp.status))

/-- The `status` sub-object of a transfer-set item in the GET body:
`state` is always present, `description` only sometimes (absence is a
KeyError when read). -/
structure ItemStatus where
  state : String
  description : Option String
deriving Repr, DecidableEq

/-- One entry of `transferSet.item` in the GET body. -/
structure TransferItem where
  status : ItemStatus
deriving Repr, DecidableEq

/-- The `transferSet` group of the GET body. -/
structure TransferSet where
  item : List TransferItem
deriving Repr, DecidableEq

/-- One entry of the `transfer` array of the GET body: the id, the
overall `status.state`, and the optional `transferSet` group (the
source guards its access with a containment check). -/
structure TransferEntry where
  id : String
  state : String
  transferSet : Option TransferSet
deriving Repr, DecidableEq

/-- The response to a GET, as doGetTransferStatus observes it: the HTTP
status and, for a 200, the parsed `transfer` array of the JSON body. -/
structure GetResponse where
  status : Nat
  transfer : List TransferEntry
deriving Repr, DecidableEq

/-- Embedding of the loop over `transferSet.item`: for each item whose
`status.state` is failed, print its `status.description`. Reading a
missing description key raises KeyError; lines printed before the raise
are kept. -/
def printFailedItems : List TransferItem → List String × Except PyError Unit
  | [] => ([], .ok ())
  | it :: rest =>
    if it.status.state == "failed" then
      match it.status.description with
      | none => ([], .error (.keyError "description"))
      | some d =>
        let (lines, r) := printFailedItems rest
        (("Error: " ++ d) :: lines, r)
    else printFailedItems rest

/-- Embedding of `doGetTransferStatus`. On a non-200 status the source
executes `print("Response received for GET request: " + response.status)`,
which concatenates a str with an int and raises TypeError, so the
`return response.status` on that branch is never reached. On a 200 it
reads `transfer[0]` (IndexError when the array is empty), prints the id
and state, and when the state is failed and a transferSet is present
prints the description of each failed item; it then returns the status. -/
def doGetTransferStatus (resp : GetResponse) : List String × Except PyError Nat :=
  if resp.status != OK then
    ([], .error strIntTypeError)
  else
    match resp.transfer with
    | [] => ([], .error .indexError)
    | entry :: _ =>
      let line1 := "Status of transfer request with Id " ++ entry.id ++ " is " ++ entry.state
      if entry.state == "failed" then
        match entry.transferSet with
        | some ts =>
          let (errLines, r) := printFailedItems ts.item
          (line1 :: errLines,
           match r with
           | .ok _ => .ok resp.status
           | .error e => .error e)
        | none => ([line1], .ok resp.status)
      else ([line1], .ok resp.status)

/-- The remote side as the workflow sees it: one POST response, and the
response to the n-th GET issued (0-indexed). -/
structure Transport where
  post : PostResponse
  get : Nat → GetResponse

/-- What one run of the program produces: everything printed (the
top-level `except` prints the message of any escaping exception) and
how many GET requests were issued. The program contains no sleep call
of any kind. -/
structure WorkflowTrace where
  printed : List String
  gets : Nat
deriving Repr

/-- Embedding of the top-level workflow: POST; if the returned value is
a str, GET once; if that GET returned 404, GET once more. All of it
sits in a try/except whose handler prints the exception. -/
def workflow (t : Transport) : WorkflowTrace :=
  match doPostTransfer t.post with
  | (p1, .error e) => ⟨p1 ++ [pyErrorMessage e], 0⟩
  | (p1, .ok (.code _)) => ⟨p1, 0⟩
  | (p1, .ok (.loc _)) =>
    match doGetTransferStatus (t.get 0) with
    | (p2, .error e) => ⟨p1 ++ p2 ++ [pyErrorMessage e], 1⟩
    | (p2, .ok s) =>
      if s == NOT_FOUND then
        match doGetTransferStatus (t.get 1) with
        | (p3, .error e) => ⟨p1 ++ p2 ++ p3 ++ [pyErrorMessage e], 2⟩
        | (p3, .ok _) => ⟨p1 ++ p2 ++ p3, 2⟩
      else ⟨p1 ++ p2, 1⟩

end MftSubmit

namespace MftSubmit

/-! Helper lemmas shared by the claim theorems. -/

/-- doPostTransfer on a non-202 response prints the error line and
returns the status code as an int. -/
theorem doPostTransfer_non202 (resp : PostResponse) (h : resp.status ≠ 202) :
    doPostTransfer resp =
      (["Posted transfer request successfully",
        "An error occurred while posting transfer request. HTTP response code: "
          ++ toString resp.status],
       .ok (.code resp.status)) := by
  unfold doPostTransfer
  simp [ACCEPTED, h]

/-- doPostTransfer on a 202 response carrying a location header prints
the acceptance line and returns the header value as a str. -/
theorem doPostTransfer_202_some (resp : PostResponse) (l : String)
    (hs : resp.status = 202) (hl : resp.location = some l) :
    doPostTransfer resp =
      (["Posted transfer request successfully",
        "Transfer requested accepted. Status URL " ++ l],
       .ok (.loc l)) := by
  unfold doPostTransfer
  simp [ACCEPTED, hs, hl]

/-- doPostTransfer on a 202 response with no location header raises
TypeError from the print of the None header. -/
theorem doPostTransfer_202_none (resp : PostResponse)
    (hs : resp.status = 202) (hl : resp.location = none) :
    doPostTransfer resp = (["Posted transfer request successfully"], .error strNoneTypeError) := by
  unfold doPostTransfer
  simp [ACCEPTED, hs, hl]

/-- doGetTransferStatus on any non-200 response raises the TypeError of
the str-plus-int print before reaching its return statement. -/
theorem doGetTransferStatus_non200 (resp : GetResponse) (h : resp.status ≠ 200) :
    doGetTransferStatus resp = ([], .error strIntTypeError) := by
  unfold doGetTransferStatus
  simp [OK, h]

/-- When every failed item carries a description, the item loop prints
exactly one line per failed item, in order, and raises nothing. -/
theorem printFailedItems_all_desc (items : List TransferItem)
    (h : ∀ it ∈ items, it.status.state = "failed" → it.status.description.isSome) :
    printFailedItems items =
      ((items.filter (fun it => it.status.state == "failed")).map
        (fun it => "Error: " ++ it.status.description.getD ""), .ok ()) := by
  induction items with
  | nil => rfl
  | cons it rest ih =>
    have hrest : ∀ x ∈ rest, x.status.state = "failed" → x.status.description.isSome :=
      fun x hx => h x (List.mem_cons_of_mem _ hx)
    by_cases hf : it.status.state = "failed"
    · have hd := h it (List.mem_cons_self _ _) hf
      match hld : it.status.description with
      | none => rw [hld] at hd; simp at hd
      | some d => simp [printFailedItems, hf, hld, ih hrest]
    · simp [printFailedItems, hf, ih hrest]

/-- A workflow whose POST is rejected with a non-202 status issues no
GET at all. -/
theorem workflow_gets_zero_non202 (t : Transport) (h : t.post.status ≠ 202) :
    (workflow t).gets = 0 := by
  unfold workflow
  rw [doPostTransfer_non202 t.post h]

/-- A workflow whose POST returns a location string issues at least one
GET. -/
theorem workflow_gets_pos_of_loc (t : Transport) (p : List String) (l : String)
    (h : doPostTransfer t.post = (p, .ok (.loc l))) :
    0 < (workflow t).gets := by
  unfold workflow
  rw [h]
  rcases hget : doGetTransferStatus (t.get 0) with ⟨p2, r2⟩
  rcases r2 with e | s
  · simp
  · by_cases h404 : s == NOT_FOUND
    · simp only [h404, if_pos]
      rcases hget2 : doGetTransferStatus (t.get 1) with ⟨p3, r3⟩
      rcases r3 with e3 | s3 <;> simp
    · simp only [h404]
      simp

end MftSubmit

namespace MftSubmit

/-! Claim theorems. -/

/-- C1: the claim states that for every GET status response whose HTTP
status is not 200 (notably 404), doGetTransferStatus returns that raw
status code without parsing a body and without raising an error. In the
source, the print statement on that branch concatenates a str with the
int status and raises TypeError before the return is reached, so the
function raises instead of returning the code; this theorem records the
actual behavior on every non-200 response. -/
theorem C1_get_non200_raises_typeError (resp : GetResponse) (h : resp.status ≠ 200) :
    doGetTransferStatus resp = ([], .error strIntTypeError) :=
  doGetTransferStatus_non200 resp h

/-- Witness for C1 at a concrete 404 response. -/
theorem C1_get_non200_raises_typeError_witness :
    (⟨404, []⟩ : GetResponse).status ≠ 200 ∧
    doGetTransferStatus ⟨404, []⟩ = ([], .error strIntTypeError) :=
  ⟨by decide, C1_get_non200_raises_typeError ⟨404, []⟩ (by decide)⟩

/-- C2: the claim states that after a first 404 the workflow sleeps five
seconds and issues exactly one more GET, ending in PollFailure after two
GETs when the second is also 404. In the source the first 404 makes
doGetTransferStatus raise TypeError (str-plus-int print), the blanket
except prints the message, and the run ends after exactly one GET with
no sleep; the program contains no sleep call at all. This theorem
records the actual behavior: one GET, and the trace ends with the
TypeError message. -/
theorem C2_first_404_ends_after_one_get (t : Transport) (l : String)
    (hs : t.post.status = 202) (hl : t.post.location = some l)
    (hg : (t.get 0).status = 404) :
    (workflow t).gets = 1 ∧
    (workflow t).printed =
      ["Posted transfer request successfully",
       "Transfer requested accepted. Status URL " ++ l,
       pyErrorMessage strIntTypeError] := by
  have hpost := doPostTransfer_202_some t.post l hs hl
  have hget : doGetTransferStatus (t.get 0) = ([], .error strIntTypeError) :=
    doGetTransferStatus_non200 _ (by rw [hg]; decide)
  unfold workflow
  rw [hpost, hget]
  exact ⟨rfl, rfl⟩

/-- Witness for C2: a transport answering 202 with a location and then
404 to every GET. -/
theorem C2_first_404_ends_after_one_get_witness :
    (202 = 202 ∧ some "/loc" = some "/loc" ∧ (404 : Nat) = 404) ∧
    (workflow ⟨⟨202, some "/loc"⟩, fun _ => ⟨404, []⟩⟩).gets = 1 ∧
    (workflow ⟨⟨202, some "/loc"⟩, fun _ => ⟨404, []⟩⟩).printed =
      ["Posted transfer request successfully",
       "Transfer requested accepted. Status URL " ++ "/loc",
       pyErrorMessage strIntTypeError] :=
  ⟨⟨rfl, rfl, rfl⟩,
   C2_first_404_ends_after_one_get ⟨⟨202, some "/loc"⟩, fun _ => ⟨404, []⟩⟩ "/loc" rfl rfl rfl⟩

/-- C3: for every job-creation response with status 202 carrying a
location header L, doPostTransfer returns L (as the str the top level
recognizes as the status location). -/
theorem C3_post_202_returns_location (resp : PostResponse) (L : String)
    (hs : resp.status = 202) (hl : resp.location = some L) :
    (doPostTransfer resp).2 = .ok (.loc L) := by
  rw [doPostTransfer_202_some resp L hs hl]

/-- Witness for C3 at a concrete 202 response with a location header. -/
theorem C3_post_202_returns_location_witness :
    (⟨202, some "/transfer/123"⟩ : PostResponse).status = 202 ∧
    (doPostTransfer ⟨202, some "/transfer/123"⟩).2 = .ok (.loc "/transfer/123") :=
  ⟨rfl, C3_post_202_returns_location ⟨202, some "/transfer/123"⟩ "/transfer/123" rfl rfl⟩

/-- C4: for every job-creation response with status 202 but no location
header, submission fails and is not treated as success: the print of
the missing (None) header raises TypeError, the embedding's rendering
of the protocol violation, so doPostTransfer produces an error and no
return value of either kind. -/
theorem C4_post_202_no_location_fails (resp : PostResponse)
    (hs : resp.status = 202) (hl : resp.location = none) :
    (doPostTransfer resp).2 = .error strNoneTypeError ∧
    ∀ r : PostResult, (doPostTransfer resp).2 ≠ .ok r := by
  have h := doPostTransfer_202_none resp hs hl
  refine ⟨by rw [h], fun r hr => ?_⟩
  rw [h] at hr
  exact Except.noConfusion hr

/-- Witness for C4 at a concrete 202 response without a location. -/
theorem C4_post_202_no_location_fails_witness :
    (⟨202, none⟩ : PostResponse).status = 202 ∧
    (doPostTransfer ⟨202, none⟩).2 = .error strNoneTypeError ∧
    ∀ r : PostResult, (doPostTransfer ⟨202, none⟩).2 ≠ .ok r :=
  ⟨rfl, C4_post_202_no_location_fails ⟨202, none⟩ rfl rfl⟩

/-- C5: for every job-creation response with a status other than 202,
doPostTransfer returns exactly that status code as its result (the
SubmissionFailure of the claim), and the workflow issues no status GET
afterwards; the single POST is the only HTTP call the submitter makes.
-/
theorem C5_non202_submission_failure (t : Transport) (h : t.post.status ≠ 202) :
    (doPostTransfer t.post).2 = .ok (.code t.post.status) ∧ (workflow t).gets = 0 := by
  refine ⟨?_, workflow_gets_zero_non202 t h⟩
  rw [doPostTransfer_non202 t.post h]

/-- Witness for C5 at a concrete 400 rejection. -/
theorem C5_non202_submission_failure_witness :
    ((⟨⟨400, none⟩, fun _ => ⟨200, []⟩⟩ : Transport).post.status ≠ 202) ∧
    (doPostTransfer (⟨⟨400, none⟩, fun _ => ⟨200, []⟩⟩ : Transport).post).2 = .ok (.code 400) ∧
    (workflow ⟨⟨400, none⟩, fun _ => ⟨200, []⟩⟩).gets = 0 :=
  ⟨by decide, C5_non202_submission_failure ⟨⟨400, none⟩, fun _ => ⟨200, []⟩⟩ (by decide)⟩

end MftSubmit

namespace MftSubmit

/-- C6: for every 200 status response whose first transfer entry has
overall state failed and carries a transferSet whose failed items all
have descriptions, doGetTransferStatus prints the status line followed
by exactly one Error line per item whose own status.state is failed, in
order, containing that item's description — and nothing from the
non-failed items — and returns 200. -/
theorem C6_failed_items_descriptions (resp : GetResponse) (entry : TransferEntry)
    (rest : List TransferEntry) (ts : TransferSet)
    (hs : resp.status = 200) (ht : resp.transfer = entry :: rest)
    (hstate : entry.state = "failed") (hts : entry.transferSet = some ts)
    (hdesc : ∀ it ∈ ts.item, it.status.state = "failed" → it.status.description.isSome) :
    doGetTransferStatus resp =
      (("Status of transfer request with Id " ++ entry.id ++ " is " ++ entry.state)
        :: (ts.item.filter (fun it => it.status.state == "failed")).map
             (fun it => "Error: " ++ it.status.description.getD ""),
       .ok 200) := by
  unfold doGetTransferStatus
  simp [OK, hs, ht, hstate, hts, printFailedItems_all_desc ts.item hdesc]

/-- Witness for C6: a failed transfer with one failed item whose
description is disk full and one completed item carrying its own
description, which must not surface. -/
theorem C6_failed_items_descriptions_witness :
    (∀ it ∈ [(⟨⟨"failed", some "disk full"⟩⟩ : TransferItem), ⟨⟨"completed", some "all fine"⟩⟩],
        it.status.state = "failed" → it.status.description.isSome) ∧
    doGetTransferStatus
        ⟨200, [⟨"TR1", "failed",
               some ⟨[⟨⟨"failed", some "disk full"⟩⟩, ⟨⟨"completed", some "all fine"⟩⟩]⟩⟩]⟩ =
      (["Status of transfer request with Id TR1 is failed", "Error: disk full"], .ok 200) :=
  ⟨by decide,
   C6_failed_items_descriptions
     ⟨200, [⟨"TR1", "failed",
            some ⟨[⟨⟨"failed", some "disk full"⟩⟩, ⟨⟨"completed", some "all fine"⟩⟩]⟩⟩]⟩
     ⟨"TR1", "failed",
      some ⟨[⟨⟨"failed", some "disk full"⟩⟩, ⟨⟨"completed", some "all fine"⟩⟩]⟩⟩
     [] ⟨[⟨⟨"failed", some "disk full"⟩⟩, ⟨⟨"completed", some "all fine"⟩⟩]⟩
     rfl rfl rfl rfl (by decide)⟩

/-- C7 counterexample: the claim states that an empty required field or
an empty item sequence makes the RequestBuilder fail with
InvalidDescriptor before any network call. The source performs no
validation whatsoever: with every identifier and item name empty, it
happily returns the serialized descriptor below (and the item sequence
is hard-coded to one element, so it can never be empty). -/
theorem C7_counterexample_empty_fields_accepted :
    buildTransferRequest ⟨"", "", "", "", "", "", "", "", "", ""⟩ =
      "\x7b\"sourceAgent\": \x7b\"qmgrName\": \"\", \"name\": \"\"\x7d, \"destinationAgent\": \x7b\"qmgrName\": \"\", \"name\": \"\"\x7d, \"transferSet\": \x7b\"item\": [\x7b\"source\": \x7b\"name\": \"\", \"type\": \"\"\x7d, \"destination\": \x7b\"name\": \"\", \"type\": \"\"\x7d\x7d]\x7d\x7d" := by
  rfl

set_option maxRecDepth 8192 in
/-- C7 amended: buildTransferRequest validates nothing: for every
configuration, including configurations whose required identifiers and
item names are all empty, it returns the serialized one-item descriptor
embedding each configured field (JSON-escaped) verbatim, and no error
of any kind is signalled. -/
theorem C7_amended_no_validation (c : Config) :
    buildTransferRequest c =
      "\x7b\"sourceAgent\": \x7b\"qmgrName\": \"" ++ escape c.sourceQMName ++ "\", \"name\": \"" ++ escape c.sourceAgentName
      ++ "\"\x7d, \"destinationAgent\": \x7b\"qmgrName\": \"" ++ escape c.destinationQMName ++ "\", \"name\": \"" ++ escape c.destinationAgentName
      ++ "\"\x7d, \"transferSet\": \x7b\"item\": [\x7b\"source\": \x7b\"name\": \"" ++ escape c.sourceItemName ++ "\", \"type\": \"" ++ escape c.sourceItemType
      ++ "\"\x7d, \"destination\": \x7b\"name\": \"" ++ escape c.destinationItemName ++ "\", \"type\": \"" ++ escape c.destinationItemType ++ "\"\x7d\x7d]\x7d\x7d" := by
  simp only [buildTransferRequest, dumps, dumpsFields, dumpsElems,
    show escape "sourceAgent" = "sourceAgent" from rfl,
    show escape "destinationAgent" = "destinationAgent" from rfl,
    show escape "qmgrName" = "qmgrName" from rfl,
    show escape "name" = "name" from rfl,
    show escape "transferSet" = "transferSet" from rfl,
    show escape "item" = "item" from rfl,
    show escape "source" = "source" from rfl,
    show escape "destination" = "destination" from rfl,
    show escape "type" = "type" from rfl,
    String.append_assoc]
  rfl

/-- C8: the claim states the Authorization header value is the string
Basic followed by a space and the base64 of userId colon password. The
source instead applies Python str to the bytes object returned by
b64encode, which yields the bytes repr, so for the configured
credentials the header value carries a spurious b and single quotes
around the base64 text; this theorem evaluates the three headers the
code actually builds at the configured credentials. -/
theorem C8_auth_header_embeds_bytes_repr :
    buildHTTPHeaders "mftuser" "mftpassw0rd" =
      [("Content-type", "application/json"),
       ("ibm-mq-rest-csrf-token", ""),
       ("Authorization", "Basic b\x27bWZ0dXNlcjptZnRwYXNzdzByZA==\x27")] := by
  rfl

end MftSubmit

namespace MftSubmit

/-- C9: for every configuration, the builder deterministically produces
the serialization of an object with sourceAgent (owner and name),
destinationAgent (owner and name), and a transferSet holding an item
array whose elements each carry source and destination sub-objects with
name and type, where the array length equals the number of configured
item pairs, which is at least one, and each configured pair appears as
its item object. -/
theorem C9_descriptor_shape (c : Config) :
    ∃ items : List Json,
      buildTransferRequest c =
        dumps (.obj
          [("sourceAgent", .obj [("qmgrName", .str c.sourceQMName),
                                 ("name", .str c.sourceAgentName)]),
           ("destinationAgent", .obj [("qmgrName", .str c.destinationQMName),
                                      ("name", .str c.destinationAgentName)]),
           ("transferSet", .obj [("item", .arr items)])]) ∧
      items.length = (configuredItemPairs c).length ∧
      1 ≤ (configuredItemPairs c).length ∧
      items = (configuredItemPairs c).map (fun p =>
        .obj [("source", .obj [("name", .str p.1.1), ("type", .str p.1.2)]),
              ("destination", .obj [("name", .str p.2.1), ("type", .str p.2.2)])]) :=
  ⟨[.obj [("source", .obj [("name", .str c.sourceItemName), ("type", .str c.sourceItemType)]),
          ("destination", .obj [("name", .str c.destinationItemName),
                                ("type", .str c.destinationItemType)])]],
   rfl, rfl, Nat.le_refl 1, rfl⟩

/-- C10 counterexample: the claim states doPostTransfer returns a
string exactly when the response status is 202 and an integer
otherwise. On the 202 response with no location header it returns
neither: the print of the None header raises TypeError, so the call
produces an error value rather than any return value, refuting the
left-to-right direction at this concrete input. -/
theorem C10_counterexample_202_no_location :
    (⟨202, none⟩ : PostResponse).status = 202 ∧
    (doPostTransfer ⟨202, none⟩).2 = .error strNoneTypeError ∧
    ((doPostTransfer ⟨202, none⟩).2).isOk = false :=
  ⟨rfl, rfl, rfl⟩

/-- C10 amended: for every transport whose POST response carries a
location header whenever its status is 202, doPostTransfer returns a
string (the location) exactly when the status is 202 and the integer
status code otherwise, and the workflow issues at least one status GET
exactly when the returned value is the string; with a 202 response that
lacks the header the call instead raises. -/
theorem C10_amended_type_dispatch (t : Transport)
    (h : t.post.status = 202 → (t.post.location).isSome) :
    ((∃ s, (doPostTransfer t.post).2 = .ok (.loc s)) ↔ t.post.status = 202) ∧
    (t.post.status ≠ 202 → (doPostTransfer t.post).2 = .ok (.code t.post.status)) ∧
    (0 < (workflow t).gets ↔ ∃ s, (doPostTransfer t.post).2 = .ok (.loc s)) := by
  by_cases hs : t.post.status = 202
  · obtain ⟨l, hl⟩ := Option.isSome_iff_exists.mp (h hs)
    have hpost := doPostTransfer_202_some t.post l hs hl
    refine ⟨⟨fun _ => hs, fun _ => ⟨l, by rw [hpost]⟩⟩, fun hn => absurd hs hn, ?_, ?_⟩
    · intro _
      exact ⟨l, by rw [hpost]⟩
    · intro _
      exact workflow_gets_pos_of_loc t _ l hpost
  · have hpost := doPostTransfer_non202 t.post hs
    refine ⟨⟨?_, fun hc => absurd hc hs⟩, fun _ => by rw [hpost], ?_, ?_⟩
    · rintro ⟨s, hloc⟩
      rw [hpost] at hloc
      simp at hloc
    · intro hpos
      rw [workflow_gets_zero_non202 t hs] at hpos
      exact absurd hpos (by decide)
    · rintro ⟨s, hloc⟩
      rw [hpost] at hloc
      simp at hloc

/-- Witness for C10 amended at a transport answering 202 with a
location header and 200 to the GET. -/
theorem C10_amended_type_dispatch_witness :
    ((⟨⟨202, some "/loc"⟩, fun _ => ⟨200, [⟨"TR1", "started", none⟩]⟩⟩ : Transport).post.status = 202 →
      ((⟨⟨202, some "/loc"⟩, fun _ => ⟨200, [⟨"TR1", "started", none⟩]⟩⟩ : Transport).post.location).isSome) ∧
    (((∃ s, (doPostTransfer (⟨202, some "/loc"⟩ : PostResponse)).2 = .ok (.loc s)) ↔
        (⟨202, some "/loc"⟩ : PostResponse).status = 202) ∧
     ((⟨202, some "/loc"⟩ : PostResponse).status ≠ 202 →
        (doPostTransfer (⟨202, some "/loc"⟩ : PostResponse)).2 = .ok (.code 202)) ∧
     (0 < (workflow ⟨⟨202, some "/loc"⟩, fun _ => ⟨200, [⟨"TR1", "started", none⟩]⟩⟩).gets ↔
        ∃ s, (doPostTransfer (⟨202, some "/loc"⟩ : PostResponse)).2 = .ok (.loc s))) :=
  ⟨fun _ => rfl,
   C10_amended_type_dispatch ⟨⟨202, some "/loc"⟩, fun _ => ⟨200, [⟨"TR1", "started", none⟩]⟩⟩
     (fun _ => rfl)⟩

end MftSubmit
